import Mathlib

/-!
Shallow embedding of `src/src/ItemCollectGame.tsx` (ir-example-item-collect).

The game replicates two key-value stores built by folding received actions
(`ItemState`, `ScoreState`), reactively materializes one simulation entity per
live item handle, runs an authoritative per-tick spawn policy, and bridges
trigger-overlap events into dispatched destroy (collect) actions.

Identifiers are opaque strings (UUIDs, user ids); a process-local entity is a
natural number index.  JavaScript `Record` objects are modelled as
insertion-ordered association lists with unique keys: setting an existing key
updates it in place, setting a fresh key appends it.
-/

abbrev EntityUUID := String

abbrev UserID := String

abbrev Entity := Nat

/-- Exact rational coordinates standing in for the engine's 3-vector. -/
structure Vec3 where
  x : ℚ
  y : ℚ
  z : ℚ
  deriving DecidableEq

/-- Exact rational coordinates standing in for the engine's quaternion. -/
structure Quat where
  x : ℚ
  y : ℚ
  z : ℚ
  w : ℚ
  deriving DecidableEq

/-- Lookup of the first binding of a key in an association list. -/
def lookupKey {κ α : Type} [DecidableEq κ] : List (κ × α) → κ → Option α
  | [], _ => none
  | (k, v) :: rest, key => if k = key then some v else lookupKey rest key

/-- JavaScript-record update: overwrite the binding in place if the key is
present, otherwise append it at the end. -/
def setKey {κ α : Type} [DecidableEq κ] : List (κ × α) → κ → α → List (κ × α)
  | [], key, v => [(key, v)]
  | (k, w) :: rest, key, v =>
      if k = key then (key, v) :: rest else (k, w) :: setKey rest key v

/-- Remove the first binding of a key from an association list. -/
def eraseKey {κ α : Type} [DecidableEq κ] : List (κ × α) → κ → List (κ × α)
  | [], _ => []
  | (k, w) :: rest, key => if k = key then rest else (k, w) :: eraseKey rest key

/-- Keys of an association list, in insertion order. -/
def mapKeys {κ α : Type} (m : List (κ × α)) : List κ :=
  m.map Prod.fst

/-- ValidItemColors (src line 47): the fixed closed color set. -/
def ValidItemColors : List String :=
  ["red", "blue", "green", "yellow", "purple", "orange", "pink", "brown"]

/-- ItemActions (src lines 49–63): the two action kinds.  `spawn` extends the
engine's spawnObject action with a color constrained to `ValidItemColors`;
`destroy` extends the engine's destroyEntity action with the collector's
userID.  The parent reference of a spawn is kept as an `Option` because the
spawn system computes it from an unchecked ancestor lookup. -/
inductive ItemAction
  | spawn (entityUUID : EntityUUID) (parentUUID : Option EntityUUID)
      (color : String) (position : Vec3) (rotation : Quat)
  | destroy (entityUUID : EntityUUID) (userID : UserID)
  deriving DecidableEq

/-- Matcher validation of an action's payload, per the action definitions in
src lines 49–63: a spawn matches only when its color is one of the literals in
`ValidItemColors` (src line 53, `matches.literals(...ValidItemColors)`); a
destroy's userID format check is treated as passing for every modelled id. -/
def ItemAction.isValid : ItemAction → Bool
  | .spawn _ _ c _ _ => decide (c ∈ ValidItemColors)
  | .destroy _ _ => true

/-- ItemState's store value (src line 86): `Record<EntityUUID, string>`. -/
abbrev ItemStateMap := List (EntityUUID × String)

/-- ScoreState's store value (src line 70): `Record<UserID, number>`. -/
abbrev ScoreStateMap := List (UserID × Nat)

/-- ItemState's sole receptor (src lines 88–92): it receives `ItemActions.spawn`
and sets `state[action.entityUUID] = action.color`.  No receptor of ItemState
matches the destroy action, so applying a destroy never changes ItemState. -/
def applyActionItemState (st : ItemStateMap) : ItemAction → ItemStateMap
  | .spawn u _ c _ _ => setKey st u c
  | .destroy _ _ => st

/-- ScoreState's receptor `onCollectItem` (src lines 72–78): on a destroy
action, initialize the collector's count to 1 when absent, otherwise add 1. -/
def ScoreState.onCollectItem (ss : ScoreStateMap) (uid : UserID) : ScoreStateMap :=
  match lookupKey ss uid with
  | none => setKey ss uid 1
  | some v => setKey ss uid (v + 1)

/-- Fold of an action into ScoreState: only the destroy receptor exists
(src lines 72–78); spawn actions leave ScoreState untouched. -/
def applyActionScoreState (ss : ScoreStateMap) : ItemAction → ScoreStateMap
  | .spawn _ _ _ _ _ => ss
  | .destroy _ uid => ScoreState.onCollectItem ss uid

/-- Combined replicated state of one process, together with the engine's
entity registry (which local entity, if any, is registered under each
replicated handle) and a fresh-entity counter. -/
structure GameState where
  itemState : ItemStateMap
  scoreState : ScoreStateMap
  entities : List (EntityUUID × Entity)
  nextEntity : Entity
  deriving DecidableEq

/-- Modelled from the spec: the scene/engine collaborator (spec section 6,
"entity creation/destruction") applies the base spawnObject / destroyEntity
actions that `ItemActions.spawn` / `ItemActions.destroy` extend, creating a
local entity registered under the action's handle on spawn and destroying it
on destroy.  That handling lives in the engine packages, not under src/. -/
def applyActionEntities (reg : List (EntityUUID × Entity)) (fresh : Entity) :
    ItemAction → List (EntityUUID × Entity)
  | .spawn u _ _ _ _ => setKey reg u fresh
  | .destroy u _ => eraseKey reg u

/-- Fresh-entity counter advance: a spawn consumes one local entity index. -/
def nextEntityAfter (n : Entity) : ItemAction → Entity
  | .spawn _ _ _ _ _ => n + 1
  | .destroy _ _ => n

/-- Modelled from the spec: receiving one action.  A receiver first checks the
action against its matcher and drops a non-matching action without mutating
any state (spec section 4.1 and section 7(a)); a matching action is folded
into every store whose receptor matches it. -/
def applyAction (gs : GameState) (a : ItemAction) : GameState :=
  if a.isValid then
    { itemState := applyActionItemState gs.itemState a
      scoreState := applyActionScoreState gs.scoreState a
      entities := applyActionEntities gs.entities gs.nextEntity a
      nextEntity := nextEntityAfter gs.nextEntity a }
  else gs

/-- Receiving a sequence of actions in order. -/
def applyActions (gs : GameState) (as : List ItemAction) : GameState :=
  as.foldl applyAction gs

/-- State of a process before any action has been received. -/
def initialGameState : GameState :=
  { itemState := [], scoreState := [], entities := [], nextEntity := 0 }

/-- Claim C1: in the code, a DestroyAction does NOT remove the handle's entry
from ItemState — ItemState's only receptor matches the spawn action (src lines
88–92), so the entry `H1 ↦ red` survives applying `destroy H1 U1`, and in fact
no destroy ever changes ItemState. -/
theorem itemState_destroy_leaves_entry :
    applyActionItemState [("H1", "red")] (ItemAction.destroy "H1" "U1") = [("H1", "red")]
    ∧ ∀ (st : ItemStateMap) (u : EntityUUID) (uid : UserID),
        applyActionItemState st (ItemAction.destroy u uid) = st :=
  ⟨rfl, fun _ _ _ => rfl⟩

/-- Physics body types used by the reactor (engine enum `BodyTypes`). -/
inductive BodyType
  | Fixed
  | Dynamic
  | Kinematic
  deriving DecidableEq

/-- Collider shapes used by the reactor (engine enum `Shapes`). -/
inductive ColliderShape
  | Sphere
  | Box
  | Capsule
  deriving DecidableEq

/-- Primitive geometry kinds used by the reactor (engine `GeometryTypeEnum`). -/
inductive GeometryType
  | SphereGeometry
  | BoxGeometry
  deriving DecidableEq

/-- Collision groups used by the reactor (engine enum `CollisionGroups`). -/
inductive CollisionGroup
  | Default
  | Avatars
  deriving DecidableEq

/-- One component configuration applied to an entity by the ItemReactor
(src lines 112–143), one constructor per `setComponent` / `setCallback`
call site. -/
inductive ComponentSetting
  | itemComponent
  | visible (value : Bool)
  | rigidBody (bodyType : BodyType)
  | name (value : String)
  | trigger (onEnter onExit : Option String) (target : EntityUUID)
  | callback (key : String)
  | transformScale (x y z : ℚ)
  | collider (shape : ColliderShape) (collisionLayer collisionMask : CollisionGroup)
  | primitiveGeometry (geometryType : GeometryType)
  | shadow
  deriving DecidableEq

/-- ItemReactor's effect (src lines 106–147): resolve the handle to a local
entity (`UUIDComponent.useEntityByUUID`); when the lookup fails the effect
bails out binding nothing (src line 110); otherwise it applies the component
configuration.  The collider entity IS the item entity itself (src line 126:
`const colliderEntity = entity`; the separate child collider entity is
commented out). -/
def ItemReactor.effect (lookup : EntityUUID → Option Entity)
    (entityUUID : EntityUUID) : List (Entity × ComponentSetting) :=
  match lookup entityUUID with
  | none => []
  | some entity =>
      let colliderEntity := entity
      [(entity, ComponentSetting.itemComponent),
       (entity, ComponentSetting.visible true),
       (entity, ComponentSetting.rigidBody BodyType.Fixed),
       (entity, ComponentSetting.name "item"),
       (entity, ComponentSetting.trigger (some "onCollectItem") none ""),
       (entity, ComponentSetting.callback "onCollectItem"),
       (colliderEntity, ComponentSetting.transformScale (1/4) (1/4) (1/4)),
       (colliderEntity, ComponentSetting.collider ColliderShape.Sphere
          CollisionGroup.Default CollisionGroup.Avatars),
       (colliderEntity, ComponentSetting.primitiveGeometry GeometryType.SphereGeometry),
       (colliderEntity, ComponentSetting.shadow)]

/-- ItemState's reactor pass (src lines 94–103): mount one `ItemReactor`
per key of ItemState (keyed by the handle, so exactly one per key) and take
the union of their effects. -/
def binderPass (lookup : EntityUUID → Option Entity) (st : ItemStateMap) :
    List (Entity × ComponentSetting) :=
  (mapKeys st).flatMap (ItemReactor.effect lookup)

/-- Handles for which the reactor pass actually binds a Live Entity: keys of
ItemState whose handle resolves to an existing local entity (the ItemReactor
binds nothing when the lookup fails, src line 110). -/
def boundHandles (lookup : EntityUUID → Option Entity) (st : ItemStateMap) :
    List EntityUUID :=
  (mapKeys st).filter (fun u => (lookup u).isSome)

/-- Entities carrying the ItemComponent tag after the reactor pass: the
resolved entities of the bound handles.  This is what `itemQuery` (src line
154) returns once the reactive pass has run. -/
def boundEntities (lookup : EntityUUID → Option Entity) (st : ItemStateMap) :
    List Entity :=
  (mapKeys st).filterMap lookup

/-- Scenario used by several checks: one item is spawned and then collected.
The spawn inserts `H1 ↦ red` into ItemState and registers entity 0; the
destroy removes the engine entity but — ItemState having no destroy
receptor — leaves the ItemState entry in place. -/
def gsAfterCollect : GameState :=
  applyActions initialGameState
    [ItemAction.spawn "H1" (some "sceneRoot") "red" ⟨0, 1/2, 0⟩ ⟨0, 0, 0, 1⟩,
     ItemAction.destroy "H1" "U1"]

/-- Claim C2: binder convergence fails on the code.  After spawning item H1
and applying the destroy that collects it, H1 is still a key of ItemState
(no destroy receptor removes it) yet its engine entity is gone, so the
reactor pass binds no Live Entity for it: the bound set is empty while
ItemState still holds H1. -/
theorem binder_leaks_after_destroy :
    mapKeys gsAfterCollect.itemState = ["H1"]
    ∧ boundHandles (fun u => lookupKey gsAfterCollect.entities u) gsAfterCollect.itemState = []
    ∧ binderPass (fun u => lookupKey gsAfterCollect.entities u) gsAfterCollect.itemState = [] := by
  refine ⟨?_, ?_, ?_⟩ <;> rfl

/-- Modelled from the spec: `currentScore(userID)` (spec section 4.2) — the
read-only score reader returning 0 for unknown identities.  The source file
only ever writes scores; no reader of ScoreState appears under src/. -/
def currentScore (ss : ScoreStateMap) (uid : UserID) : Nat :=
  (lookupKey ss uid).getD 0

theorem lookupKey_setKey_self {κ α : Type} [DecidableEq κ]
    (m : List (κ × α)) (k : κ) (v : α) :
    lookupKey (setKey m k v) k = some v := by
  induction m with
  | nil => simp [setKey, lookupKey]
  | cons hd tl ih =>
      obtain ⟨a, b⟩ := hd
      by_cases hak : a = k
      · simp [setKey, hak, lookupKey]
      · simp [setKey, hak, lookupKey, ih]

theorem lookupKey_setKey_ne {κ α : Type} [DecidableEq κ]
    (m : List (κ × α)) (k k' : κ) (v : α) (h : k' ≠ k) :
    lookupKey (setKey m k v) k' = lookupKey m k' := by
  have h2 : k ≠ k' := Ne.symm h
  induction m with
  | nil => simp [setKey, lookupKey, h2]
  | cons hd tl ih =>
      obtain ⟨a, b⟩ := hd
      by_cases hak : a = k
      · subst hak
        simp [setKey, lookupKey, h2]
      · simp [setKey, hak, lookupKey, ih]

theorem currentScore_onCollectItem_self (ss : ScoreStateMap) (uid : UserID) :
    currentScore (ScoreState.onCollectItem ss uid) uid = currentScore ss uid + 1 := by
  unfold ScoreState.onCollectItem currentScore
  cases h : lookupKey ss uid with
  | none => simp [h, lookupKey_setKey_self]
  | some v => simp [h, lookupKey_setKey_self]

theorem currentScore_onCollectItem_ne (ss : ScoreStateMap) (uid v : UserID)
    (h : v ≠ uid) :
    currentScore (ScoreState.onCollectItem ss uid) v = currentScore ss v := by
  unfold ScoreState.onCollectItem currentScore
  cases hh : lookupKey ss uid with
  | none => simp [lookupKey_setKey_ne ss uid v _ h]
  | some w => simp [lookupKey_setKey_ne ss uid v _ h]

theorem lookupKey_onCollectItem_isSome (ss : ScoreStateMap) (uid v : UserID)
    (h : (lookupKey ss v).isSome) :
    (lookupKey (ScoreState.onCollectItem ss uid) v).isSome := by
  by_cases hv : v = uid
  · subst hv
    unfold ScoreState.onCollectItem
    cases hh : lookupKey ss v with
    | none => simp [lookupKey_setKey_self]
    | some w => simp [lookupKey_setKey_self]
  · unfold ScoreState.onCollectItem
    cases hh : lookupKey ss uid with
    | none => simpa [lookupKey_setKey_ne ss uid v _ hv] using h
    | some w => simpa [lookupKey_setKey_ne ss uid v _ hv] using h

/-- Claim C3 counterexample: a stale destroy (handle absent from ItemState)
leaves ItemState unchanged but does NOT leave the other replicated store
unchanged — ScoreState's receptor fires on every destroy action and credits
the collector, so from empty stores the destroy of the absent handle H1 still
sets U1's score to 1. -/
theorem stale_destroy_mutates_score_counterexample :
    lookupKey ([] : ItemStateMap) "H1" = none
    ∧ applyActionItemState [] (ItemAction.destroy "H1" "U1") = []
    ∧ applyActionScoreState [] (ItemAction.destroy "H1" "U1") = [("U1", 1)]
    ∧ applyActionScoreState [] (ItemAction.destroy "H1" "U1") ≠ [] := by
  refine ⟨rfl, rfl, rfl, ?_⟩
  decide

/-- Claim C3 as amended: applying a DestroyAction for a handle absent from
ItemState leaves ItemState unchanged (indeed no destroy ever changes
ItemState), but it is not a global no-op: ScoreState is still mutated, the
collector's score rising by exactly 1. -/
theorem stale_destroy_itemState_unchanged_score_incremented
    (st : ItemStateMap) (ss : ScoreStateMap) (u : EntityUUID) (uid : UserID)
    (_h : lookupKey st u = none) :
    applyActionItemState st (ItemAction.destroy u uid) = st
    ∧ currentScore (applyActionScoreState ss (ItemAction.destroy u uid)) uid
        = currentScore ss uid + 1 :=
  ⟨rfl, currentScore_onCollectItem_self ss uid⟩

/-- Claim C3 amended witness: the amended statement evaluated at the concrete
stale destroy of H1 by U1 against empty stores. -/
theorem stale_destroy_amended_witness :
    applyActionItemState [] (ItemAction.destroy "H1" "U1") = ([] : ItemStateMap)
    ∧ currentScore (applyActionScoreState [] (ItemAction.destroy "H1" "U1")) "U1"
        = currentScore [] "U1" + 1 :=
  stale_destroy_itemState_unchanged_score_incremented [] [] "H1" "U1" rfl

/-- Claim C4: the ScoreState contract.  Applying a DestroyAction raises the
collector's score by exactly 1 (initializing the stored count to 1 when the
key is absent); no action ever lowers any score or removes a stored count; and
the score of an identity with no stored count reads as 0. -/
theorem scoreState_destroy_contract (ss : ScoreStateMap) (u : EntityUUID) (uid : UserID) :
    currentScore (applyActionScoreState ss (ItemAction.destroy u uid)) uid
        = currentScore ss uid + 1
    ∧ (lookupKey ss uid = none →
        lookupKey (applyActionScoreState ss (ItemAction.destroy u uid)) uid = some 1)
    ∧ (∀ (a : ItemAction) (v : UserID),
        currentScore ss v ≤ currentScore (applyActionScoreState ss a) v)
    ∧ (∀ (a : ItemAction) (v : UserID), (lookupKey ss v).isSome →
        (lookupKey (applyActionScoreState ss a) v).isSome)
    ∧ (∀ (tt : ScoreStateMap) (v : UserID), lookupKey tt v = none → currentScore tt v = 0) := by
  refine ⟨currentScore_onCollectItem_self ss uid, ?_, ?_, ?_, ?_⟩
  · intro h
    show lookupKey (ScoreState.onCollectItem ss uid) uid = some 1
    unfold ScoreState.onCollectItem
    simp [h, lookupKey_setKey_self]
  · intro a v
    cases a with
    | spawn _ _ _ _ _ => exact le_refl _
    | destroy _ uid0 =>
        by_cases hv : v = uid0
        · subst hv
          have := currentScore_onCollectItem_self ss v
          show currentScore ss v ≤ currentScore (ScoreState.onCollectItem ss v) v
          omega
        · have := currentScore_onCollectItem_ne ss uid0 v hv
          show currentScore ss v ≤ currentScore (ScoreState.onCollectItem ss uid0) v
          omega
  · intro a v h
    cases a with
    | spawn _ _ _ _ _ => exact h
    | destroy _ uid0 => exact lookupKey_onCollectItem_isSome ss uid0 v h
  · intro tt v h
    simp [currentScore, h]

/-- Claim C4 witness: the contract evaluated at a concrete store where U1
already holds 2 collections and collects H1 once more. -/
theorem scoreState_destroy_contract_witness :
    currentScore (applyActionScoreState [("U1", 2)] (ItemAction.destroy "H1" "U1")) "U1"
        = currentScore [("U1", 2)] "U1" + 1 :=
  (scoreState_destroy_contract [("U1", 2)] "H1" "U1").1

/-- Per-tick environment read by ItemSpawnSystem.execute (src lines 159–184):
the entities returned by `itemQuery()`, the world network's hosting flag
(`none` when `NetworkState.worldNetwork` is undefined), the random color index
(`Math.floor(Math.random() * ValidItemColors.length)`, always below the list
length), the entities named "platform" (`NameComponent.entitiesByName`), the
engine's ancestor-with-SceneComponent walk and UUID lookup, the freshly
generated handle, and the random position and rotation. -/
structure SpawnEnv where
  itemEntities : List Entity
  worldNetwork : Option Bool
  colorIndex : Nat
  platformEntities : List Entity
  sceneAncestor : Entity → Option Entity
  uuidOf : Entity → Option EntityUUID
  freshUUID : EntityUUID
  randPosition : Vec3
  randRotation : Quat

/-- ItemSpawnSystem.execute (src lines 159–184).  In order: return when the
item query is non-empty; return when there is no world network or it is not
hosting; pick the random color; return when no entity named "platform" exists
(the optional index `?.[0]`); walk up from the platform to the scene root and
read its UUID — this walk is NOT checked for failure, its possibly-absent
result is threaded straight into the dispatched action's parent reference —
and dispatch the spawn action. -/
def ItemSpawnSystem.execute (env : SpawnEnv) : Option ItemAction :=
  if env.itemEntities.length ≠ 0 then none
  else if env.worldNetwork ≠ some true then none
  else
    let color := ValidItemColors.getD (env.colorIndex % ValidItemColors.length) "red"
    match env.platformEntities.head? with
    | none => none
    | some platformEntity =>
        let parentUUID := (env.sceneAncestor platformEntity).bind env.uuidOf
        some (ItemAction.spawn env.freshUUID parentUUID color
          env.randPosition env.randRotation)

/-- One simulation tick of the spawn system on a process: run the policy and
fold the dispatched action (if any) into the process state. -/
def spawnTick (gs : GameState) (env : SpawnEnv) : GameState :=
  match ItemSpawnSystem.execute env with
  | none => gs
  | some a => applyAction gs a

/-- Tick environment after the spawn-and-collect scenario `gsAfterCollect`:
the item query returns exactly the entities the reactor pass bound (none —
the engine entity of H1 is destroyed), the process hosts the world network,
and the platform and scene root resolve normally. -/
def envAfterCollect : SpawnEnv :=
  { itemEntities := boundEntities (fun u => lookupKey gsAfterCollect.entities u)
      gsAfterCollect.itemState
    worldNetwork := some true
    colorIndex := 2
    platformEntities := [7]
    sceneAncestor := fun _ => some 8
    uuidOf := fun _ => some "sceneRoot"
    freshUUID := "H2"
    randPosition := ⟨3, 1/2, 4⟩
    randRotation := ⟨0, 0, 0, 1⟩ }

/-- Claim C5 counterexample: the spawn policy does not consult ItemState.
After the spawn-and-collect scenario, the local ItemState still holds a live
entry for H1, yet — the item query being empty — the policy dispatches a new
SpawnAction instead of doing nothing. -/
theorem spawn_policy_ignores_itemState_counterexample :
    gsAfterCollect.itemState = [("H1", "red")]
    ∧ envAfterCollect.itemEntities = []
    ∧ (ItemSpawnSystem.execute envAfterCollect).isSome = true := by
  refine ⟨rfl, rfl, rfl⟩

/-- Claim C5 as amended: the spawn policy's cap is gated on the item query
(entities tagged with ItemComponent), not on ItemState — whenever at least one
queried item entity exists, the tick dispatches nothing. -/
theorem spawn_policy_gates_on_item_entities (env : SpawnEnv)
    (h : env.itemEntities ≠ []) :
    ItemSpawnSystem.execute env = none := by
  unfold ItemSpawnSystem.execute
  have hlen : env.itemEntities.length ≠ 0 := by
    cases he : env.itemEntities with
    | nil => exact absurd he h
    | cons a tl => simp [he]
  simp [hlen]

/-- Claim C5 amended witness: with one item entity present (and every other
condition favorable to spawning), the policy dispatches nothing. -/
theorem spawn_policy_gates_on_item_entities_witness :
    ItemSpawnSystem.execute
      { itemEntities := [4]
        worldNetwork := some true
        colorIndex := 0
        platformEntities := [7]
        sceneAncestor := fun _ => some 8
        uuidOf := fun _ => some "sceneRoot"
        freshUUID := "H3"
        randPosition := ⟨0, 1/2, 0⟩
        randRotation := ⟨0, 0, 0, 1⟩ } = none :=
  spawn_policy_gates_on_item_entities _ (by decide)

/-- Claim C6: on a process that is not hosting the world network (or has no
world network at all), a tick of the spawn system dispatches nothing and
leaves the process state unchanged. -/
theorem non_authority_tick_noop (gs : GameState) (env : SpawnEnv)
    (h : env.worldNetwork ≠ some true) :
    ItemSpawnSystem.execute env = none ∧ spawnTick gs env = gs := by
  have hexec : ItemSpawnSystem.execute env = none := by
    unfold ItemSpawnSystem.execute
    by_cases hlen : env.itemEntities.length ≠ 0
    · simp [hlen]
    · simp [hlen, h]
  exact ⟨hexec, by simp [spawnTick, hexec]⟩

/-- Claim C6 witness: a non-hosting tick evaluated at the initial state with
an environment that would otherwise spawn. -/
theorem non_authority_tick_noop_witness :
    ItemSpawnSystem.execute
      { itemEntities := []
        worldNetwork := some false
        colorIndex := 0
        platformEntities := [7]
        sceneAncestor := fun _ => some 8
        uuidOf := fun _ => some "sceneRoot"
        freshUUID := "H4"
        randPosition := ⟨0, 1/2, 0⟩
        randRotation := ⟨0, 0, 0, 1⟩ } = none
    ∧ spawnTick initialGameState
      { itemEntities := []
        worldNetwork := some false
        colorIndex := 0
        platformEntities := [7]
        sceneAncestor := fun _ => some 8
        uuidOf := fun _ => some "sceneRoot"
        freshUUID := "H4"
        randPosition := ⟨0, 1/2, 0⟩
        randRotation := ⟨0, 0, 0, 1⟩ } = initialGameState :=
  non_authority_tick_noop initialGameState _ (by decide)

/-- Tick environment in which the entity named "platform" exists but the walk
up to a scene root fails: `getAncestorWithComponents` finds no ancestor with
a SceneComponent. -/
def envMissingRoot : SpawnEnv :=
  { itemEntities := []
    worldNetwork := some true
    colorIndex := 0
    platformEntities := [5]
    sceneAncestor := fun _ => none
    uuidOf := fun _ => none
    freshUUID := "H9"
    randPosition := ⟨0, 1/2, 0⟩
    randRotation := ⟨0, 0, 0, 1⟩ }

/-- Claim C7 counterexample: when the scene-root walk fails, the tick does NOT
skip — src lines 172–183 never check the result of the ancestor walk, so the
policy still dispatches a SpawnAction, carrying an unresolved (absent) parent
reference. -/
theorem missing_scene_root_still_dispatches :
    envMissingRoot.sceneAncestor 5 = none
    ∧ ItemSpawnSystem.execute envMissingRoot
        = some (ItemAction.spawn "H9" none "red" ⟨0, 1/2, 0⟩ ⟨0, 0, 0, 1⟩) :=
  ⟨rfl, rfl⟩

/-- Claim C7 as amended: only the failure to find the entity named "platform"
is a guarded soft failure — the tick then dispatches nothing (whatever the
other conditions).  The scene-root walk is not checked: when it fails on a
tick that otherwise spawns, the policy still dispatches a SpawnAction whose
parent reference is unresolved. -/
theorem anchor_resolution_guard (env : SpawnEnv) :
    (env.platformEntities.head? = none → ItemSpawnSystem.execute env = none)
    ∧ (∀ p : Entity, env.itemEntities = [] → env.worldNetwork = some true →
        env.platformEntities.head? = some p → env.sceneAncestor p = none →
        ∃ (c : String) (pos : Vec3) (rot : Quat),
          ItemSpawnSystem.execute env
            = some (ItemAction.spawn env.freshUUID none c pos rot)) := by
  constructor
  · intro hp
    unfold ItemSpawnSystem.execute
    by_cases hlen : env.itemEntities.length ≠ 0
    · simp [hlen]
    · by_cases hw : env.worldNetwork ≠ some true
      · simp [hlen, hw]
      · simp [hlen, hw, hp]
  · intro p hitems hw hp hroot
    refine ⟨ValidItemColors.getD (env.colorIndex % ValidItemColors.length) "red",
      env.randPosition, env.randRotation, ?_⟩
    unfold ItemSpawnSystem.execute
    simp [hitems, hw, hp, hroot, Option.bind]

/-- Claim C7 amended witness: the guarded branch evaluated at a concrete
environment with no entity named "platform". -/
theorem anchor_resolution_guard_witness :
    ItemSpawnSystem.execute
      { itemEntities := []
        worldNetwork := some true
        colorIndex := 0
        platformEntities := []
        sceneAncestor := fun _ => some 8
        uuidOf := fun _ => some "sceneRoot"
        freshUUID := "H5"
        randPosition := ⟨0, 1/2, 0⟩
        randRotation := ⟨0, 0, 0, 1⟩ } = none :=
  (anchor_resolution_guard _).1 rfl

theorem mem_binderPass_of_mem_effect
    (lookup : EntityUUID → Option Entity) (st : ItemStateMap) (u : EntityUUID)
    (x : Entity × ComponentSetting) (hu : u ∈ mapKeys st)
    (hx : x ∈ ItemReactor.effect lookup u) : x ∈ binderPass lookup st := by
  unfold binderPass
  exact List.mem_flatMap.mpr ⟨u, hu, hx⟩

/-- Claim C8: for every handle present in ItemState whose entity lookup
succeeds, the reactor pass configures the bound Live Entity as: tagged with
ItemComponent (collectible); visible; a Fixed (non-dynamic) rigid body; a
trigger volume whose enter callback is the collect bridge `onCollectItem`,
with the callback registered and the collider colliding against the Avatars
group; a small (quarter-scale) sphere collider, whose collision geometry
specification is a component distinct from the visual geometry component (the
sphere primitive mesh); and shadow casting. -/
theorem item_entity_configuration
    (lookup : EntityUUID → Option Entity) (st : ItemStateMap)
    (u : EntityUUID) (e : Entity)
    (h1 : u ∈ mapKeys st) (h2 : lookup u = some e) :
    (e, ComponentSetting.itemComponent) ∈ binderPass lookup st
    ∧ (e, ComponentSetting.visible true) ∈ binderPass lookup st
    ∧ (e, ComponentSetting.rigidBody BodyType.Fixed) ∈ binderPass lookup st
    ∧ (e, ComponentSetting.trigger (some "onCollectItem") none "") ∈ binderPass lookup st
    ∧ (e, ComponentSetting.callback "onCollectItem") ∈ binderPass lookup st
    ∧ (e, ComponentSetting.transformScale (1/4) (1/4) (1/4)) ∈ binderPass lookup st
    ∧ (e, ComponentSetting.collider ColliderShape.Sphere
        CollisionGroup.Default CollisionGroup.Avatars) ∈ binderPass lookup st
    ∧ (e, ComponentSetting.primitiveGeometry GeometryType.SphereGeometry) ∈ binderPass lookup st
    ∧ (e, ComponentSetting.shadow) ∈ binderPass lookup st
    ∧ ComponentSetting.collider ColliderShape.Sphere
        CollisionGroup.Default CollisionGroup.Avatars
        ≠ ComponentSetting.primitiveGeometry GeometryType.SphereGeometry := by
  refine ⟨?_, ?_, ?_, ?_, ?_, ?_, ?_, ?_, ?_, by simp⟩ <;>
    (apply mem_binderPass_of_mem_effect lookup st u _ h1; simp [ItemReactor.effect, h2])

/-- Entity lookup for the C8 witness: the single handle H1 resolves to the
local entity 3. -/
def witnessLookup : EntityUUID → Option Entity :=
  fun u => if u = "H1" then some 3 else none

/-- Claim C8 witness: the configuration theorem evaluated at the one-item
store `H1 ↦ red` with H1 resolving to entity 3. -/
theorem item_entity_configuration_witness :
    (3, ComponentSetting.itemComponent) ∈ binderPass witnessLookup [("H1", "red")]
    ∧ (3, ComponentSetting.visible true) ∈ binderPass witnessLookup [("H1", "red")] :=
  ⟨(item_entity_configuration witnessLookup [("H1", "red")] "H1" 3 (by decide) (by decide)).1,
   (item_entity_configuration witnessLookup [("H1", "red")] "H1" 3 (by decide) (by decide)).2.1⟩

/-- The trigger callback installed by the ItemReactor (src lines 119–123):
invoked with the trigger entity and the overlapping entity, it returns (ignores
the event) unless the overlapping entity is the local participant's own avatar
entity, and otherwise dispatches the destroy action carrying the item's handle
and the local participant's identity. -/
def ItemReactor.onCollectItem (selfAvatarEntity : Entity) (localUserID : UserID)
    (itemUUID : EntityUUID) (triggerEntity otherEntity : Entity) : Option ItemAction :=
  if otherEntity ≠ selfAvatarEntity then none
  else some (ItemAction.destroy itemUUID localUserID)

/-- Claim C9: collector identity gating.  When the overlapping entity is not
the local participant's own controlled avatar entity, no DestroyAction is
dispatched; when it is, exactly one DestroyAction is dispatched, carrying the
item's handle and the local participant's identity. -/
theorem collector_identity_gating (selfAvatarEntity : Entity) (localUserID : UserID)
    (itemUUID : EntityUUID) (triggerEntity otherEntity : Entity) :
    (otherEntity ≠ selfAvatarEntity →
      ItemReactor.onCollectItem selfAvatarEntity localUserID itemUUID
        triggerEntity otherEntity = none)
    ∧ (otherEntity = selfAvatarEntity →
      ItemReactor.onCollectItem selfAvatarEntity localUserID itemUUID
        triggerEntity otherEntity
        = some (ItemAction.destroy itemUUID localUserID)) := by
  constructor
  · intro h
    simp [ItemReactor.onCollectItem, h]
  · intro h
    simp [ItemReactor.onCollectItem, h]

/-- Claim C9 witness: the local avatar (entity 5) overlapping the item H1
dispatches the destroy crediting the local identity U1. -/
theorem collector_identity_gating_witness :
    ItemReactor.onCollectItem 5 "U1" "H1" 9 5
      = some (ItemAction.destroy "H1" "U1") :=
  (collector_identity_gating 5 "U1" "H1" 9 5).2 rfl

/-- Claim C10: a SpawnAction whose color lies outside the fixed set fails the
action's matcher, so the receiving process drops it without applying it: the
whole process state — ItemState, ScoreState and the entity registry — is left
exactly unchanged. -/
theorem invalid_color_spawn_rejected (gs : GameState) (u : EntityUUID)
    (pu : Option EntityUUID) (c : String) (pos : Vec3) (rot : Quat)
    (h : c ∉ ValidItemColors) :
    applyAction gs (ItemAction.spawn u pu c pos rot) = gs := by
  simp [applyAction, ItemAction.isValid, h]

/-- Claim C10 witness: a spawn action colored "black" (outside the fixed set)
received at the initial state leaves it unchanged. -/
theorem invalid_color_spawn_rejected_witness :
    applyAction initialGameState
      (ItemAction.spawn "H1" (some "sceneRoot") "black" ⟨0, 1/2, 0⟩ ⟨0, 0, 0, 1⟩)
      = initialGameState :=
  invalid_color_spawn_rejected initialGameState "H1" (some "sceneRoot") "black"
    ⟨0, 1/2, 0⟩ ⟨0, 0, 0, 1⟩ (by decide)
